import Mathlib

/-!
Verification of the adapter-registry core of the `config` package
(`src/config/config.go`).

The Go package keeps a package-level mutable map
`var adapters = make(map[string]Config)`; here that state is made explicit:
every function takes the current registry as an argument and, when it
mutates it, returns the new registry.  Go `panic` has no value channel, so a
call that may panic is modelled by returning an `Option String` panic
message alongside its effect (`none` = normal return).

Go interface values may be nil, so an adapter argument or a stored map
value is `Option (Config C)`, with `none` standing for a nil interface.
Calling a method on a nil interface panics at runtime; `NewConfig` /
`NewConfigData` model that with an explicit `GoResult.panicked` branch,
which the reachability invariant proves dead.

The `Configer` values produced by adapters are opaque to this file (no
adapter implementation is part of `src/config/config.go`), so the
development is parametric in a type `C` of parsed-configuration objects.
-/

namespace BeegoConfig

/-- The message of a Go error, `none` standing for a nil error. -/
abbrev GoError := String

/-- Outcome of a Go call that may panic. -/
inductive GoResult (α : Type) : Type where
  | ok (val : α) : GoResult α
  | panicked (msg : String) : GoResult α
deriving DecidableEq, Repr

/-- The `Config` adapter interface of `config.go` (lines 79-84): a factory
able to parse a file path or a raw byte buffer into a `Configer` value of
type `C` or an error.  Go returns the pair `(Configer, error)` with both
components independently nilable, hence the product of options. -/
structure Config (C : Type) : Type where
  Parse : String → Option C × Option GoError
  ParseData : List UInt8 → Option C × Option GoError

/-- The registry state: the package-level map `adapters` of `config.go`
line 87, as an association list from adapter name to a (possibly nil)
`Config` interface value.  Its initial value `make(map[string]Config)` is
the empty list. -/
abbrev Registry (C : Type) : Type := List (String × Option (Config C))

/-- Go map read `m[k]`: first (and, for a map, only) binding of `k`. -/
def assocFind {β : Type} (m : List (String × β)) (k : String) : Option β :=
  match m with
  | [] => none
  | (k', v) :: rest => if k' = k then some v else assocFind rest k

/-- Go map assignment `m[k] = v`: replace the binding of `k` or append it. -/
def assocInsert {β : Type} (m : List (String × β)) (k : String) (v : β) :
    List (String × β) :=
  match m with
  | [] => [(k, v)]
  | (k', v') :: rest =>
    if k' = k then (k, v) :: rest else (k', v') :: assocInsert rest k v

/-- `Register` of `config.go` lines 94-104.  Returns the registry after the
call together with the panic message when the call panics (`adapter` nil,
or `name` already present); the Go function itself returns nothing, so the
panic channel is its only way of reporting misuse. -/
def Register {C : Type} (reg : Registry C) (name : String)
    (adapter : Option (Config C)) : Registry C × Option String :=
  match adapter with
  | none => (reg, some "config: Register adapter is nil")
  | some _ =>
    if (assocFind reg name).isSome then
      (reg, some ("config: Register called twice for adapter " ++ name))
    else
      (assocInsert reg name adapter, none)

/-- The error text built by `fmt.Errorf("config: unknown adaptername %q
(forgotten import?)", adapterName)` at lines 114 and 128.  The verb `%q`
surrounds the name with double quotes (Go escaping of exotic characters
inside the name is not modelled; adapter names are plain identifiers). -/
def unknownAdapterMsg (adapterName : String) : String :=
  "config: unknown adaptername \"" ++ adapterName ++ "\" (forgotten import?)"

/-- `NewConfig` of `config.go` lines 109-118: look the adapter up, fail with
the unknown-adapter error when absent, otherwise delegate to its `Parse`.
A stored nil interface value would make the method call panic; that branch
is modelled explicitly (and proved unreachable from the real registry). -/
def NewConfig {C : Type} (reg : Registry C) (adapterName filename : String) :
    GoResult (Option C × Option GoError) :=
  match assocFind reg adapterName with
  | none => .ok (none, some (unknownAdapterMsg adapterName))
  | some none =>
    .panicked "runtime error: invalid memory address or nil pointer dereference"
  | some (some adapter) => .ok (adapter.Parse filename)

/-- `NewConfigData` of `config.go` lines 123-132: same lookup, delegating to
`ParseData` on a byte buffer. -/
def NewConfigData {C : Type} (reg : Registry C) (adapterName : String)
    (data : List UInt8) : GoResult (Option C × Option GoError) :=
  match assocFind reg adapterName with
  | none => .ok (none, some (unknownAdapterMsg adapterName))
  | some none =>
    .panicked "runtime error: invalid memory address or nil pointer dereference"
  | some (some adapter) => .ok (adapter.ParseData data)

/-- Registry states the program can actually reach: the initial empty map,
grown only by non-panicking `Register` calls (a panicking call leaves the
registry as it was, so it reaches no new state). -/
inductive Reachable {C : Type} : Registry C → Prop where
  | init : Reachable ([] : Registry C)
  | step (reg : Registry C) (name : String) (adapter : Option (Config C))
      (hreg : Reachable reg) (hok : (Register reg name adapter).2 = none) :
      Reachable (Register reg name adapter).1

/-- No binding of the registry holds a nil interface value. -/
def NoNilAdapter {C : Type} (reg : Registry C) : Prop :=
  ∀ p ∈ reg, p.2 ≠ none

section Lemmas

variable {C : Type} {β : Type}

theorem assocFind_insert_self (m : List (String × β)) (k : String) (v : β) :
    assocFind (assocInsert m k v) k = some v := by
  induction m with
  | nil => simp [assocInsert, assocFind]
  | cons p rest ih =>
    obtain ⟨k', v'⟩ := p
    by_cases h : k' = k
    · simp [assocInsert, assocFind, h]
    · simp [assocInsert, assocFind, h, ih]

theorem assocFind_insert_ne (m : List (String × β)) (k k' : String) (v : β)
    (h : k' ≠ k) : assocFind (assocInsert m k v) k' = assocFind m k' := by
  have hkk : ¬ k = k' := fun e => h e.symm
  induction m with
  | nil => simp [assocInsert, assocFind, hkk]
  | cons p rest ih =>
    obtain ⟨k'', v''⟩ := p
    by_cases hk : k'' = k
    · have hk2 : ¬ k'' = k' := by rw [hk]; exact hkk
      simp only [assocInsert, if_pos hk, assocFind, if_neg hkk, if_neg hk2]
    · simp only [assocInsert, if_neg hk]
      by_cases hk' : k'' = k'
      · simp [assocFind, hk']
      · simp [assocFind, hk', ih]

theorem assocInsert_noNil (reg : Registry C) (name : String)
    (a : Config C) (h : NoNilAdapter reg) :
    NoNilAdapter (assocInsert reg name (some a)) := by
  induction reg with
  | nil =>
    intro p hp
    simp [assocInsert] at hp
    simp [hp]
  | cons q rest ih =>
    obtain ⟨k', v'⟩ := q
    have hq : (k', v').2 ≠ none := h _ (List.mem_cons_self _ _)
    have hrest : NoNilAdapter rest := fun p hp => h p (List.mem_cons_of_mem _ hp)
    by_cases hk : k' = name
    · intro p hp
      simp [assocInsert, hk] at hp
      rcases hp with hp | hp
      · simp [hp]
      · exact h p (List.mem_cons_of_mem _ hp)
    · intro p hp
      simp [assocInsert, hk] at hp
      rcases hp with hp | hp
      · simpa [hp] using hq
      · exact ih hrest p hp

theorem register_ok_shape (reg : Registry C) (name : String)
    (adapter : Option (Config C)) (hok : (Register reg name adapter).2 = none) :
    ∃ a, adapter = some a ∧ assocFind reg name = none ∧
      (Register reg name adapter).1 = assocInsert reg name (some a) := by
  match adapter with
  | none => simp [Register] at hok
  | some a =>
    by_cases h : (assocFind reg name).isSome
    · simp [Register, h] at hok
    · refine ⟨a, rfl, ?_, ?_⟩
      · exact Option.not_isSome_iff_eq_none.mp h
      · simp [Register, h]

theorem reachable_noNil (reg : Registry C) (h : Reachable reg) :
    NoNilAdapter reg := by
  induction h with
  | init => intro p hp; simp at hp
  | step reg name adapter hreg hok ih =>
    obtain ⟨a, rfl, hfind, hins⟩ := register_ok_shape reg name _ hok
    rw [hins]
    exact assocInsert_noNil reg name a ih

theorem assocFind_mem (m : List (String × β)) (k : String) (v : β)
    (h : assocFind m k = some v) : (k, v) ∈ m := by
  induction m with
  | nil => simp [assocFind] at h
  | cons p rest ih =>
    obtain ⟨k', v'⟩ := p
    by_cases hk : k' = k
    · subst hk
      simp [assocFind] at h
      simp [h]
    · simp [assocFind, hk] at h
      exact List.mem_cons_of_mem _ (ih h)

theorem register_panic_characterization (reg : Registry C) (name : String)
    (adapter : Option (Config C)) :
    (Register reg name adapter).2.isSome ↔
      adapter = none ∨ (assocFind reg name).isSome := by
  match adapter with
  | none => simp [Register]
  | some a => by_cases h : (assocFind reg name).isSome <;> simp [Register, h]

end Lemmas

/-- A concrete sample adapter over `C := Nat`, used by the witnesses:
`Parse` always succeeds with the value `7`, `ParseData` with the buffer
length. -/
def sampleAdapter : Config Nat where
  Parse := fun _ => (some 7, none)
  ParseData := fun data => (some data.length, none)

/-- A second concrete sample adapter over `C := Nat` whose `Parse` fails,
used by the witnesses to exercise error propagation. -/
def sampleAdapterB : Config Nat where
  Parse := fun filename => (none, some ("parse failure: " ++ filename))
  ParseData := fun _ => (some 0, none)

/-- C1: for every adapter name `n` not yet present in the registry and
every non-nil adapter `a`, `Register n a` succeeds without panicking, a
subsequent lookup of `n` (the one `NewConfig` / `NewConfigData` perform)
returns exactly `a`, and both construction entry points then delegate to
`a`. -/
theorem C1_register_then_lookup {C : Type} (reg : Registry C) (n : String)
    (a : Config C) (hfresh : assocFind reg n = none) :
    (Register reg n (some a)).2 = none ∧
    assocFind (Register reg n (some a)).1 n = some (some a) ∧
    (∀ filename, NewConfig (Register reg n (some a)).1 n filename =
      .ok (a.Parse filename)) ∧
    (∀ data, NewConfigData (Register reg n (some a)).1 n data =
      .ok (a.ParseData data)) := by
  have hno : ¬ (assocFind reg n).isSome := by simp [hfresh]
  have hreg1 : (Register reg n (some a)).1 = assocInsert reg n (some a) := by
    simp [Register, hno]
  have hfind : assocFind (assocInsert reg n (some a)) n = some (some a) :=
    assocFind_insert_self reg n (some a)
  refine ⟨by simp [Register, hno], by rw [hreg1]; exact hfind, ?_, ?_⟩
  · intro filename
    rw [hreg1]
    simp [NewConfig, hfind]
  · intro data
    rw [hreg1]
    simp [NewConfigData, hfind]

/-- Witness for C1: registering `sampleAdapter` as `"ini"` on the empty
registry. -/
theorem C1_register_then_lookup_witness :
    assocFind ([] : Registry Nat) "ini" = none ∧
    ((Register ([] : Registry Nat) "ini" (some sampleAdapter)).2 = none ∧
     assocFind (Register ([] : Registry Nat) "ini" (some sampleAdapter)).1
       "ini" = some (some sampleAdapter) ∧
     (∀ filename,
       NewConfig (Register ([] : Registry Nat) "ini" (some sampleAdapter)).1
         "ini" filename = .ok (sampleAdapter.Parse filename)) ∧
     (∀ data,
       NewConfigData (Register ([] : Registry Nat) "ini"
         (some sampleAdapter)).1 "ini" data =
         .ok (sampleAdapter.ParseData data))) :=
  ⟨rfl, C1_register_then_lookup [] "ini" sampleAdapter rfl⟩

/-- C2: for every name absent from the registry, `NewConfig` and
`NewConfigData` both return a nil `Configer` (first component `none`)
together with a non-nil error (second component `some`) whose message
mentions the unknown adapter name, whatever the path and the data buffer. -/
theorem C2_unknown_adapter {C : Type} (reg : Registry C) (name : String)
    (h : assocFind reg name = none) (filename : String) (data : List UInt8) :
    NewConfig reg name filename = .ok (none, some (unknownAdapterMsg name)) ∧
    NewConfigData reg name data = .ok (none, some (unknownAdapterMsg name)) ∧
    ∃ pre post, unknownAdapterMsg name = pre ++ name ++ post :=
  ⟨by simp [NewConfig, h], by simp [NewConfigData, h],
    ⟨"config: unknown adaptername \"", "\" (forgotten import?)", rfl⟩⟩

/-- Witness for C2: the name `"nonexistent"` on the empty registry. -/
theorem C2_unknown_adapter_witness :
    assocFind ([] : Registry Nat) "nonexistent" = none ∧
    (NewConfig ([] : Registry Nat) "nonexistent" "app.conf" =
      .ok (none, some (unknownAdapterMsg "nonexistent")) ∧
     NewConfigData ([] : Registry Nat) "nonexistent" [] =
      .ok (none, some (unknownAdapterMsg "nonexistent")) ∧
     ∃ pre post, unknownAdapterMsg "nonexistent" =
       pre ++ "nonexistent" ++ post) :=
  ⟨rfl, C2_unknown_adapter [] "nonexistent" rfl "app.conf" []⟩

/-- C3: `Register` panics exactly when the adapter is nil or the name is
already registered.  In this embedding the Go function's lack of an error
return shows up in the type of `Register`: its only reporting channel is
the panic message `(Register reg name adapter).2`, and this theorem states
that it fires precisely on the two misuse conditions. -/
theorem C3_register_panics_iff {C : Type} (reg : Registry C) (name : String)
    (adapter : Option (Config C)) :
    (Register reg name adapter).2.isSome ↔
      adapter = none ∨ (assocFind reg name).isSome :=
  register_panic_characterization reg name adapter

/-- C4: when the name is registered (with a non-nil adapter, the only kind
a successful `Register` stores), `NewConfig` returns exactly the pair the
adapter's `Parse` produces and `NewConfigData` exactly the pair its
`ParseData` produces, unmodified — whatever those pairs are, error or
not. -/
theorem C4_dispatch_exact {C : Type} (reg : Registry C) (name : String)
    (adapter : Config C) (h : assocFind reg name = some (some adapter))
    (filename : String) (data : List UInt8) :
    NewConfig reg name filename = .ok (adapter.Parse filename) ∧
    NewConfigData reg name data = .ok (adapter.ParseData data) :=
  ⟨by simp [NewConfig, h], by simp [NewConfigData, h]⟩

/-- Witness for C4: dispatch to `sampleAdapterB`, whose `Parse` returns an
error pair that must come back unmodified. -/
theorem C4_dispatch_exact_witness :
    assocFind [("json", some sampleAdapterB)] "json" =
      some (some sampleAdapterB) ∧
    (NewConfig [("json", some sampleAdapterB)] "json" "app.conf" =
      .ok (sampleAdapterB.Parse "app.conf") ∧
     NewConfigData [("json", some sampleAdapterB)] "json" [] =
      .ok (sampleAdapterB.ParseData [])) :=
  ⟨rfl, C4_dispatch_exact [("json", some sampleAdapterB)] "json"
    sampleAdapterB rfl "app.conf" []⟩

/-- C5: `NewConfig` and `NewConfigData` have identical lookup and error
behaviour on every registry state and name: either the lookup fails for
both, with the same unknown-adapter message, or both dispatch to the same
stored adapter (differing only in `Parse` versus `ParseData`); in the
never-reached stored-nil case both would panic with the same runtime
message. -/
theorem C5_lookup_behaviour_identical {C : Type} (reg : Registry C)
    (name filename : String) (data : List UInt8) :
    (assocFind reg name = none ∧
      NewConfig reg name filename = .ok (none, some (unknownAdapterMsg name)) ∧
      NewConfigData reg name data = .ok (none, some (unknownAdapterMsg name))) ∨
    (∃ adapter, assocFind reg name = some (some adapter) ∧
      NewConfig reg name filename = .ok (adapter.Parse filename) ∧
      NewConfigData reg name data = .ok (adapter.ParseData data)) ∨
    (assocFind reg name = some none ∧
      ∃ m, NewConfig reg name filename = .panicked m ∧
        NewConfigData reg name data = .panicked m) := by
  cases hfind : assocFind reg name with
  | none =>
    exact Or.inl ⟨rfl, by simp [NewConfig, hfind],
      by simp [NewConfigData, hfind]⟩
  | some v =>
    cases v with
    | none =>
      refine Or.inr (Or.inr ⟨rfl,
        "runtime error: invalid memory address or nil pointer dereference",
        ?_, ?_⟩)
      · simp [NewConfig, hfind]
      · simp [NewConfigData, hfind]
    | some adapter =>
      exact Or.inr (Or.inl ⟨adapter, rfl, by simp [NewConfig, hfind],
        by simp [NewConfigData, hfind]⟩)

/-- C6: a successful `Register` never removes or replaces an existing
binding: every name already bound keeps exactly its adapter.  (`NewConfig`
and `NewConfigData` cannot mutate the registry at all: in this embedding
they take it as a read-only argument and return no new registry, mirroring
the Go functions, which only read the `adapters` map.) -/
theorem C6_register_preserves_bindings {C : Type} (reg : Registry C)
    (n : String) (v : Option (Config C)) (n' : String)
    (a' : Option (Config C)) (hbound : assocFind reg n = some v)
    (hok : (Register reg n' a').2 = none) :
    assocFind (Register reg n' a').1 n = some v := by
  obtain ⟨a, rfl, hfresh, hins⟩ := register_ok_shape reg n' a' hok
  rw [hins]
  have hne : n ≠ n' := by
    intro e
    rw [e, hfresh] at hbound
    exact Option.noConfusion hbound
  rw [assocFind_insert_ne reg n' n (some a) hne, hbound]

/-- Witness for C6: the `"ini"` binding survives a later registration of
`"json"`. -/
theorem C6_register_preserves_bindings_witness :
    assocFind [("ini", some sampleAdapter)] "ini" = some (some sampleAdapter) ∧
    (Register [("ini", some sampleAdapter)] "json" (some sampleAdapterB)).2 =
      none ∧
    assocFind
      (Register [("ini", some sampleAdapter)] "json" (some sampleAdapterB)).1
      "ini" = some (some sampleAdapter) :=
  ⟨rfl, rfl, C6_register_preserves_bindings [("ini", some sampleAdapter)]
    "ini" (some sampleAdapter) "json" (some sampleAdapterB) rfl rfl⟩

/-- C7: on every registry the program can actually reach (grown from the
empty map by successful `Register` calls only), `NewConfig` and
`NewConfigData` terminate normally with an `ok` pair for every name and
input — the nil-interface panic branch is unreachable; and `Register`, the
only function that can panic, panics only on a nil adapter or an
already-registered name. -/
theorem C7_lookup_never_panics {C : Type} (reg : Registry C)
    (h : Reachable reg) (name filename : String) (data : List UInt8) :
    (∃ r, NewConfig reg name filename = .ok r) ∧
    (∃ r, NewConfigData reg name data = .ok r) ∧
    (∀ adapter : Option (Config C), (Register reg name adapter).2.isSome →
      adapter = none ∨ (assocFind reg name).isSome) := by
  have hnn := reachable_noNil reg h
  refine ⟨?_, ?_, fun adapter hp =>
    (register_panic_characterization reg name adapter).mp hp⟩
  · cases hfind : assocFind reg name with
    | none =>
      exact ⟨(none, some (unknownAdapterMsg name)), by simp [NewConfig, hfind]⟩
    | some v =>
      cases v with
      | none =>
        exact absurd rfl (hnn (name, none) (assocFind_mem reg name none hfind))
      | some adapter =>
        exact ⟨adapter.Parse filename, by simp [NewConfig, hfind]⟩
  · cases hfind : assocFind reg name with
    | none =>
      exact ⟨(none, some (unknownAdapterMsg name)),
        by simp [NewConfigData, hfind]⟩
    | some v =>
      cases v with
      | none =>
        exact absurd rfl (hnn (name, none) (assocFind_mem reg name none hfind))
      | some adapter =>
        exact ⟨adapter.ParseData data, by simp [NewConfigData, hfind]⟩

/-- Witness for C7: the registry reached by registering `sampleAdapter` as
`"ini"`, probed at a registered and input-carrying point. -/
theorem C7_lookup_never_panics_witness :
    (∃ r, NewConfig (Register ([] : Registry Nat) "ini"
      (some sampleAdapter)).1 "ini" "app.conf" = .ok r) ∧
    (∃ r, NewConfigData (Register ([] : Registry Nat) "ini"
      (some sampleAdapter)).1 "ini" [] = .ok r) ∧
    (∀ adapter : Option (Config Nat),
      (Register (Register ([] : Registry Nat) "ini" (some sampleAdapter)).1
        "ini" adapter).2.isSome →
      adapter = none ∨
      (assocFind (Register ([] : Registry Nat) "ini"
        (some sampleAdapter)).1 "ini").isSome) :=
  C7_lookup_never_panics _
    (Reachable.step [] "ini" (some sampleAdapter) Reachable.init rfl)
    "ini" "app.conf" []

/-- C9: `Register` performs no validation of the name itself: the empty
string is accepted like any other fresh name, and `NewConfig ""` then
delegates to the adapter registered under `""` instead of failing with an
unknown-adapter error. -/
theorem C9_empty_name_registered {C : Type} (reg : Registry C) (a : Config C)
    (h : assocFind reg "" = none) (filename : String) :
    (Register reg "" (some a)).2 = none ∧
    NewConfig (Register reg "" (some a)).1 "" filename =
      .ok (a.Parse filename) := by
  have hno : ¬ (assocFind reg "").isSome := by simp [h]
  have hreg1 : (Register reg "" (some a)).1 = assocInsert reg "" (some a) := by
    simp [Register, hno]
  refine ⟨by simp [Register, hno], ?_⟩
  rw [hreg1]
  simp [NewConfig, assocFind_insert_self]

/-- Witness for C9: registering `sampleAdapter` under `""` on the empty
registry. -/
theorem C9_empty_name_registered_witness :
    assocFind ([] : Registry Nat) "" = none ∧
    ((Register ([] : Registry Nat) "" (some sampleAdapter)).2 = none ∧
     NewConfig (Register ([] : Registry Nat) "" (some sampleAdapter)).1 ""
       "app.conf" = .ok (sampleAdapter.Parse "app.conf")) :=
  ⟨rfl, C9_empty_name_registered [] sampleAdapter rfl "app.conf"⟩

/-- C10: a panicking `Register` call leaves the registry exactly as it was:
both misuse checks precede the map assignment, so no entry is added,
removed or replaced. -/
theorem C10_panic_leaves_registry_unchanged {C : Type} (reg : Registry C)
    (name : String) (adapter : Option (Config C))
    (h : (Register reg name adapter).2.isSome) :
    (Register reg name adapter).1 = reg := by
  match adapter with
  | none => simp [Register]
  | some a =>
    by_cases hf : (assocFind reg name).isSome
    · simp [Register, hf]
    · simp [Register, hf] at h

/-- Modelled from the spec: no `Configer` implementation is part of
`src/config/config.go` — the concrete format adapters are external
collaborators (spec §1), only the interface contract is in the repository.
This is the parsed state of a minimal flat adapter faithful to §4.4: a
flat key-to-value map. -/
abbrev MapConfiger : Type := List (String × String)

/-- Modelled from the spec: `Set(key, value)` writes a string value at
`key` (§4.4); on a flat map every key is valid, so it always succeeds. -/
def MapConfiger.set (c : MapConfiger) (key val : String) : MapConfiger :=
  assocInsert c key val

/-- Modelled from the spec: `String(key)` returns the value at `key`, or an
empty result when the key is absent (§4.4, silent-on-absence). -/
def MapConfiger.string (c : MapConfiger) (key : String) : String :=
  (assocFind c key).getD ""

/-- Modelled from the spec: the durable store written by `SaveConfigFile`
and read back by `Parse` (§4.3, §4.4, §6): a mapping from filename to the
serialized configuration snapshot.  The byte-level layout is format
specific and out of scope (§6); what the contract fixes is that a save
stores the full current state and that `Parse` of a saved file recovers
it. -/
abbrev FileStore : Type := List (String × MapConfiger)

/-- Modelled from the spec: `SaveConfigFile(filename)` serializes the
current in-memory state to `filename`, overwriting any existing content
(§4.4); it must reproduce every value previously written with `Set`. -/
def MapConfiger.saveConfigFile (c : MapConfiger) (fs : FileStore)
    (filename : String) : FileStore :=
  assocInsert fs filename c

/-- Modelled from the spec: the adapter's `Parse(path)` (§4.3): reads the
named resource and yields a ready `Configer`, or a recoverable error when
the file is missing. -/
def mapAdapterParse (fs : FileStore) (filename : String) :
    Option MapConfiger × Option GoError :=
  match assocFind fs filename with
  | none => (none, some ("open " ++ filename ++ ": no such file or directory"))
  | some c => (some c, none)

/-- C8: round-trip law for the spec-modelled adapter: for any `Configer`
state `c` (however obtained) and any key and value, `Set k v` followed by
`SaveConfigFile f` followed by re-parsing `f` with the same adapter yields
a `Configer` whose `String k` equals `v` — also when `k` was absent from
`c`, which is arbitrary here. -/
theorem C8_set_save_reparse_roundtrip (fs : FileStore) (c : MapConfiger)
    (k v f : String) :
    mapAdapterParse (MapConfiger.saveConfigFile (MapConfiger.set c k v) fs f)
      f = (some (MapConfiger.set c k v), none) ∧
    MapConfiger.string (MapConfiger.set c k v) k = v := by
  constructor
  · simp [mapAdapterParse, MapConfiger.saveConfigFile, assocFind_insert_self]
  · simp [MapConfiger.string, MapConfiger.set, assocFind_insert_self]

/-- Witness for C10: registering a nil adapter panics and leaves the empty
registry empty. -/
theorem C10_panic_leaves_registry_unchanged_witness :
    (Register ([] : Registry Nat) "ini" none).2.isSome ∧
    (Register ([] : Registry Nat) "ini" none).1 = [] :=
  ⟨rfl, C10_panic_leaves_registry_unchanged [] "ini" none rfl⟩

end BeegoConfig
